import Mathlib

/-!
Verification development for the animal-impact tracking application.

The repository ships two server implementations over the same REST surface:
`server.ts` (relational backend, SQLite via parameterized SQL) and
`simple-server.ts` (flat-document backend: one JSON document of arrays plus a
shared id counter).  Both are shallowly embedded here over a single `Database`
state: rows are Lean structures, tables are Lean lists in insertion order
(JS `push` / SQL `INSERT` both append), JS numbers carrying monetary amounts
are modelled as exact rationals `ℚ`, JS strings as `String`.  JS truthiness on
the request fields the handlers test is modelled by its value on the relevant
type: a string is falsy exactly when it is `""`, a number exactly when it is
`0`.  `parseFloat` applied to a numeric amount is the identity and is dropped.

The password hash (bcryptjs) and the signed token (jsonwebtoken) are external
libraries, so they are modelled from their contract as stated in the spec:
an injective salted hash whose verify succeeds exactly on the original
password, and a signed `{userId, email}` payload with a 7-day expiry whose
verification checks the signature against the server secret and the expiry
against the current time.
-/

namespace AnimalImpact

/-- A user row (`User` in simple-server.ts, `users` table in database.ts).
`password` stores the hash. -/
structure User where
  id : Nat
  email : String
  name : String
  password : String
  created_at : String
deriving DecidableEq, Repr

/-- A donation row (`Donation` in simple-server.ts, `donations` table). -/
structure Donation where
  id : Nat
  user_id : Nat
  organization : String
  amount : ℚ
  date : String
  notes : String
  created_at : String
deriving DecidableEq, Repr

/-- A vegan-conversion row (`Conversion` in simple-server.ts,
`vegan_conversions` table). -/
structure Conversion where
  id : Nat
  user_id : Nat
  person_name : String
  conversion_date : String
  influence_type : String
  notes : String
  created_at : String
deriving DecidableEq, Repr

/-- A media-share row (`Media` in simple-server.ts, `media_shared` table). -/
structure Media where
  id : Nat
  user_id : Nat
  platform : String
  content_type : String
  reach_estimate : Int
  date : String
  url : String
  notes : String
  created_at : String
deriving DecidableEq, Repr

/-- A campaign-participation row (`Campaign` in simple-server.ts,
`campaigns` table). -/
structure Campaign where
  id : Nat
  user_id : Nat
  campaign_name : String
  organization : String
  participation_type : String
  date : String
  impact_description : String
  created_at : String
deriving DecidableEq, Repr

/-- The stored state (`Database` in simple-server.ts).  The relational backend
is modelled over the same state: each SQL table is the corresponding list in
insertion order.  The relational backend generates ids per table by
autoincrement while the flat backend draws them from the shared `lastId`
counter; no verified property below depends on the id values, so the shared
counter is used throughout. -/
structure Database where
  users : List User
  donations : List Donation
  conversions : List Conversion
  media : List Media
  campaigns : List Campaign
  lastId : Nat
deriving DecidableEq, Repr

/-- The empty initial document of `loadDatabase` in simple-server.ts. -/
def emptyDb : Database := ⟨[], [], [], [], [], 0⟩

/-- Modelled from the spec: bcryptjs is an external library; the spec calls it
"a salted adaptive hash (cost factor 10)".  Modelled as an injective tag so
that `bcryptCompare` succeeds exactly on the originally hashed password. -/
def bcryptHash (password : String) : String := "$2b$10$" ++ password

/-- Modelled from the spec: `bcrypt.compare(password, hash)`. -/
def bcryptCompare (password hash : String) : Bool := bcryptHash password == hash

/-- The identity embedded in a token: `{ userId, email }` as signed by both
servers. -/
structure TokenPayload where
  userId : Nat
  email : String
deriving DecidableEq, Repr

/-- Modelled from the spec: a jsonwebtoken-style signed token carrying the
payload, an expiry timestamp (seconds) and a signature over payload and
expiry. -/
structure Token where
  payload : TokenPayload
  exp : Nat
  sig : Nat
deriving DecidableEq, Repr

/-- Injective numeric code of a string, used by the model signature. -/
def strCode (s : String) : Nat :=
  s.data.foldl (fun a c => a * 1114112 + (c.toNat + 1)) 1

/-- Modelled from the spec: the signature over the payload and expiry under
the server secret. -/
def mkSig (secret : Nat) (p : TokenPayload) (exp : Nat) : Nat :=
  ((strCode p.email * 4294967296 + p.userId) * 4294967296 + exp) * 4294967296 + secret

/-- Token issuance, `jwt.sign` with a 7-day expiry from the current time. -/
def jwtSign (secret : Nat) (p : TokenPayload) (now : Nat) : Token :=
  { payload := p
    exp := now + 7 * 24 * 60 * 60
    sig := mkSig secret p (now + 7 * 24 * 60 * 60) }

/-- Token verification, `jwt.verify`: yields the payload when the
signature matches and the token is not expired, errors otherwise. -/
def jwtVerify (secret now : Nat) (t : Token) : Option TokenPayload :=
  if t.sig = mkSig secret t.payload t.exp ∧ now < t.exp then some t.payload
  else none

/-- Outcome of the `authenticateToken` middleware (identical in server.ts and
simple-server.ts). -/
inductive AuthResult where
  | unauthorized
  | forbidden
  | ok (payload : TokenPayload)
deriving DecidableEq, Repr

/-- The `authenticateToken` middleware: no bearer token → 401
(`unauthorized`); token present but `jwt.verify` errors (bad signature or
expired) → 403 (`forbidden`); otherwise the payload is attached to the
request.  The header is modelled as the optional token it carries. -/
def authenticateToken (secret now : Nat) (header : Option Token) : AuthResult :=
  match header with
  | none => .unauthorized
  | some t =>
    match jwtVerify secret now t with
    | none => .forbidden
    | some p => .ok p

/-- An HTTP status plus the optional `error` field of the JSON body. -/
structure Response where
  status : Nat
  error : Option String
deriving DecidableEq, Repr

/-- Result of POST /api/register: response, the token on success, and the
state after the call. -/
structure RegisterOutput where
  resp : Response
  token : Option Token
  db : Database
deriving Repr

/-- POST /api/register (identical logic in server.ts lines 44-85 and
simple-server.ts lines 249-294): missing field → 400; password shorter than
6 → 400; email already stored (exact, case-sensitive match) → 400; otherwise
hash, append the new user, and sign a token.  `createdAt` is the serialized
current time. -/
def register (secret now : Nat) (createdAt : String) (db : Database)
    (email name password : String) : RegisterOutput :=
  if email = "" ∨ name = "" ∨ password = "" then
    ⟨⟨400, some "All fields are required"⟩, none, db⟩
  else if password.length < 6 then
    ⟨⟨400, some "Password must be at least 6 characters"⟩, none, db⟩
  else if (db.users.find? fun u => u.email == email).isSome then
    ⟨⟨400, some "User already exists"⟩, none, db⟩
  else
    let newId := db.lastId + 1
    let newUser : User := ⟨newId, email, name, bcryptHash password, createdAt⟩
    let token := jwtSign secret ⟨newId, email⟩ now
    ⟨⟨201, none⟩, some token,
      { db with users := db.users ++ [newUser], lastId := newId }⟩

/-- POST /api/login (identical logic in both servers): missing field → 400;
unknown email or failed hash comparison → 401; success → 200 with a fresh
token.  Login never mutates the state. -/
def login (secret now : Nat) (db : Database) (email password : String) :
    Response × Option Token :=
  if email = "" ∨ password = "" then
    (⟨400, some "Email and password are required"⟩, none)
  else
    match db.users.find? fun u => u.email == email with
    | none => (⟨401, some "Invalid credentials"⟩, none)
    | some u =>
      if bcryptCompare password u.password then
        (⟨200, none⟩, some (jwtSign secret ⟨u.id, u.email⟩ now))
      else (⟨401, some "Invalid credentials"⟩, none)

/-- Result of an insert endpoint: response and the state after the call. -/
structure CreateOutput where
  resp : Response
  db : Database
deriving Repr

/-- POST /api/donations handler body, after authentication (identical guard in
server.ts lines 178-200 and simple-server.ts lines 380-410):
`!organization || !amount || !date` → 400, else append the row.  The JS
truthiness test on the number `amount` rejects exactly `0`; `notes || ''`
defaults an absent note to the empty string. -/
def createDonation (db : Database) (userId : Nat) (createdAt : String)
    (organization : String) (amount : ℚ) (date : String)
    (notes : Option String) : CreateOutput :=
  if organization = "" ∨ amount = 0 ∨ date = "" then
    ⟨⟨400, some "Organization, amount, and date are required"⟩, db⟩
  else
    let d : Donation :=
      ⟨db.lastId + 1, userId, organization, amount, date, notes.getD "", createdAt⟩
    ⟨⟨201, none⟩, { db with donations := db.donations ++ [d], lastId := db.lastId + 1 }⟩

/-- POST /api/conversions handler body after authentication (server.ts
lines 202-224): `!person_name || !conversion_date` → 400, else append the
row with `influence_type || ''` and `notes || ''`. -/
def createConversion (db : Database) (userId : Nat) (createdAt : String)
    (person_name conversion_date : String)
    (influence_type notes : Option String) : CreateOutput :=
  if person_name = "" ∨ conversion_date = "" then
    ⟨⟨400, some "Person name and conversion date are required"⟩, db⟩
  else
    let c : Conversion :=
      ⟨db.lastId + 1, userId, person_name, conversion_date,
        influence_type.getD "", notes.getD "", createdAt⟩
    ⟨⟨201, none⟩, { db with conversions := db.conversions ++ [c], lastId := db.lastId + 1 }⟩

/-- POST /api/media handler body after authentication (server.ts
lines 226-248): `!platform || !content_type || !date` → 400, else append with
`parseInt(reach_estimate) || 0` (modelled as the integer, defaulting to 0),
`url || ''`, `notes || ''`. -/
def createMedia (db : Database) (userId : Nat) (createdAt : String)
    (platform content_type : String) (reach_estimate : Option Int)
    (date : String) (url notes : Option String) : CreateOutput :=
  if platform = "" ∨ content_type = "" ∨ date = "" then
    ⟨⟨400, some "Platform, content type, and date are required"⟩, db⟩
  else
    let m : Media :=
      ⟨db.lastId + 1, userId, platform, content_type, reach_estimate.getD 0,
        date, url.getD "", notes.getD "", createdAt⟩
    ⟨⟨201, none⟩, { db with media := db.media ++ [m], lastId := db.lastId + 1 }⟩

/-- POST /api/campaigns handler body after authentication (server.ts
lines 250-272): `!campaign_name || !participation_type || !date` → 400, else
append with `organization || ''` and `impact_description || ''`. -/
def createCampaign (db : Database) (userId : Nat) (createdAt : String)
    (campaign_name : String) (organization : Option String)
    (participation_type date : String)
    (impact_description : Option String) : CreateOutput :=
  if campaign_name = "" ∨ participation_type = "" ∨ date = "" then
    ⟨⟨400, some "Campaign name, participation type, and date are required"⟩, db⟩
  else
    let c : Campaign :=
      ⟨db.lastId + 1, userId, campaign_name, organization.getD "",
        participation_type, date, impact_description.getD "", createdAt⟩
    ⟨⟨201, none⟩, { db with campaigns := db.campaigns ++ [c], lastId := db.lastId + 1 }⟩

/-! ### Dashboard aggregation -/

/-- The user's donation rows: `db.donations.filter` on `user_id` in simple-server.ts;
also the row set of `... FROM donations WHERE user_id = ?` in server.ts, in
insertion order. -/
def userDonations (db : Database) (userId : Nat) : List Donation :=
  db.donations.filter fun d => d.user_id == userId

/-- The user's conversion rows (filter in simple-server.ts, `WHERE user_id`
row set in server.ts). -/
def userConversions (db : Database) (userId : Nat) : List Conversion :=
  db.conversions.filter fun c => c.user_id == userId

/-- The user's media rows. -/
def userMedia (db : Database) (userId : Nat) : List Media :=
  db.media.filter fun m => m.user_id == userId

/-- The user's campaign rows. -/
def userCampaigns (db : Database) (userId : Nat) : List Campaign :=
  db.campaigns.filter fun c => c.user_id == userId

/-- The `stats` object of GET /api/dashboard. -/
structure Stats where
  totalDonations : ℚ
  conversionCount : Nat
  mediaCount : Nat
  totalReach : Int
  campaignCount : Nat
  animalsImpact : Nat
deriving DecidableEq, Repr

/-- The statistics as computed by simple-server.ts lines 342-354: JS `reduce`
folds from the left starting at 0; `animalsImpact = conversionCount * 365`. -/
def dashboardStatsFlat (db : Database) (userId : Nat) : Stats :=
  let ud := userDonations db userId
  let uc := userConversions db userId
  let um := userMedia db userId
  let ucp := userCampaigns db userId
  let conversionCount := uc.length
  { totalDonations := ud.foldl (fun s d => s + d.amount) 0
    conversionCount := conversionCount
    mediaCount := um.length
    totalReach := um.foldl (fun s m => s + m.reach_estimate) 0
    campaignCount := ucp.length
    animalsImpact := conversionCount * 365 }

/-- The statistics as computed by server.ts lines 133-152:
`COALESCE(SUM(amount), 0)` and `COUNT(*)` per child table `WHERE user_id = ?`,
then `animalsImpact = conversionCount * 365`.  SQL `SUM`/`COUNT` over the
selected rows are the fold and the length of the row list. -/
def dashboardStatsRel (db : Database) (userId : Nat) : Stats :=
  let conversionCount := (userConversions db userId).length
  { totalDonations := (userDonations db userId).foldl (fun s d => s + d.amount) 0
    conversionCount := conversionCount
    mediaCount := (userMedia db userId).length
    totalReach := (userMedia db userId).foldl (fun s m => s + m.reach_estimate) 0
    campaignCount := (userCampaigns db userId).length
    animalsImpact := conversionCount * 365 }

/-! ### The two notions of "recent" lists -/

/-- The flat backend's slice, `xs.slice(0, 10).reverse()` of simple-server.ts lines 367-370: the first
ten stored rows, in reverse storage order. -/
def recentOfFlat {α : Type} (l : List α) : List α := (l.take 10).reverse

/-- Strict lexicographic comparison of character lists: the order SQLite's
`ORDER BY` uses on TEXT columns, restricted to the stored date and timestamp
strings. -/
def charListLt : List Char → List Char → Bool
  | _, [] => false
  | [], _ :: _ => true
  | a :: as, b :: bs => if a = b then charListLt as bs else decide (a < b)

/-- Strict lexicographic order on strings. -/
def strLt (a b : String) : Bool := charListLt a.data b.data

/-- Lexicographic `≤` on a `(date, created_at)` key pair, both components
compared as strings (the ISO date and timestamp strings order
chronologically under this comparison). -/
def keyLe (a b : String × String) : Prop :=
  strLt a.1 b.1 = true ∨ (a.1 = b.1 ∧ (a.2 = b.2 ∨ strLt a.2 b.2 = true))

instance : DecidableRel keyLe := fun a b => by
  unfold keyLe; infer_instance

/-- The row order `ORDER BY <date> DESC, created_at DESC` puts `a` before `b`
when `b`'s key is lexicographically at most `a`'s. -/
def descKey {α : Type} (key : α → String × String) (a b : α) : Prop :=
  keyLe (key b) (key a)

instance {α : Type} (key : α → String × String) : DecidableRel (descKey key) :=
  fun a b => by unfold descKey; infer_instance

/-- The relational backend's query `SELECT * ... WHERE user_id = ? ORDER BY
date DESC, created_at DESC LIMIT 10` of server.ts lines 146-149: sort the user's rows by the descending
key and keep the first ten. -/
def recentOfRel {α : Type} (key : α → String × String) (l : List α) : List α :=
  (l.insertionSort (descKey key)) |>.take 10

/-- Sort key of a donation row in server.ts: `(date, created_at)`. -/
def donationKey (d : Donation) : String × String := (d.date, d.created_at)

/-- Sort key of a conversion row: `(conversion_date, created_at)`. -/
def conversionKey (c : Conversion) : String × String := (c.conversion_date, c.created_at)

/-- Sort key of a media row: `(date, created_at)`. -/
def mediaKey (m : Media) : String × String := (m.date, m.created_at)

/-- Sort key of a campaign row: `(date, created_at)`. -/
def campaignKey (c : Campaign) : String × String := (c.date, c.created_at)

/-- The `recent` object of GET /api/dashboard. -/
structure Recent where
  donations : List Donation
  conversions : List Conversion
  media : List Media
  campaigns : List Campaign
deriving DecidableEq, Repr

/-- The `recent` lists of simple-server.ts lines 366-371. -/
def recentFlat (db : Database) (userId : Nat) : Recent :=
  { donations := recentOfFlat (userDonations db userId)
    conversions := recentOfFlat (userConversions db userId)
    media := recentOfFlat (userMedia db userId)
    campaigns := recentOfFlat (userCampaigns db userId) }

/-- The `recent` lists of server.ts lines 146-149. -/
def recentRel (db : Database) (userId : Nat) : Recent :=
  { donations := recentOfRel donationKey (userDonations db userId)
    conversions := recentOfRel conversionKey (userConversions db userId)
    media := recentOfRel mediaKey (userMedia db userId)
    campaigns := recentOfRel campaignKey (userCampaigns db userId) }

/-- Result of GET /api/dashboard: response plus, on success, the stats and
recent lists. -/
structure DashboardOutput where
  resp : Response
  stats : Option Stats
  recent : Option Recent
deriving Repr

/-- GET /api/dashboard handler body after authentication, flat-document
backend (simple-server.ts lines 331-377): unknown user id → 404, else the
stats and the sliced-and-reversed recent lists.  The dashboard never mutates
the state. -/
def dashboardFlat (db : Database) (userId : Nat) : DashboardOutput :=
  match db.users.find? fun u => u.id == userId with
  | none => ⟨⟨404, some "User not found"⟩, none, none⟩
  | some _ => ⟨⟨200, none⟩, some (dashboardStatsFlat db userId), some (recentFlat db userId)⟩

/-- GET /api/dashboard handler body after authentication, relational backend
(server.ts lines 122-175): unknown user id → 404, else the SQL-aggregated
stats and the `ORDER BY ... LIMIT 10` recent lists. -/
def dashboardRel (db : Database) (userId : Nat) : DashboardOutput :=
  match db.users.find? fun u => u.id == userId with
  | none => ⟨⟨404, some "User not found"⟩, none, none⟩
  | some _ => ⟨⟨200, none⟩, some (dashboardStatsRel db userId), some (recentRel db userId)⟩

/-! ### Authenticated routes -/

/-- GET /api/dashboard including the `authenticateToken` middleware
(flat backend): `res.sendStatus(401)`/`res.sendStatus(403)` before any
handler logic, otherwise the handler runs on the authenticated user id.
Returns the state alongside to express that the route does not mutate it. -/
def dashboardRoute (secret now : Nat) (header : Option Token) (db : Database) :
    DashboardOutput × Database :=
  match authenticateToken secret now header with
  | .unauthorized => (⟨⟨401, none⟩, none, none⟩, db)
  | .forbidden => (⟨⟨403, none⟩, none, none⟩, db)
  | .ok p => (dashboardFlat db p.userId, db)

/-- POST /api/donations including the `authenticateToken` middleware: 401/403
before the handler body runs, otherwise `createDonation` on the token's user
id. -/
def donationsRoute (secret now : Nat) (header : Option Token) (db : Database)
    (createdAt : String) (organization : String) (amount : ℚ) (date : String)
    (notes : Option String) : CreateOutput :=
  match authenticateToken secret now header with
  | .unauthorized => ⟨⟨401, none⟩, db⟩
  | .forbidden => ⟨⟨403, none⟩, db⟩
  | .ok p => createDonation db p.userId createdAt organization amount date notes

/-! ### Seeded demo data

`database.ts` (`initializeDatabase`, lines 130-258) and `simple-server.ts`
(`initializeDemoData`, lines 111-219) each seed a demo user
`johndoe@gmail.com` with sample rows when none exists.  The dates `today`,
`lastMonth`, `twoMonthsAgo` and the row creation timestamp `ts` are computed
from the wall clock at seeding time, so they are parameters here.  Row ids in
the relational backend are per-table autoincrement (1, 2, ...); in the flat
backend they come from the shared counter. -/

/-- The demo data set produced by the relational backend's seeding routine
(database.ts lines 130-258): 5 donations, 8 conversions, 6 media shares,
5 campaigns.  `lastId` is unused by this backend and left at 0. -/
def relSeedDb (today lastMonth twoMonthsAgo ts : String) : Database :=
  { users := [⟨1, "johndoe@gmail.com", "John Doe", bcryptHash "password123", ts⟩]
    donations :=
      [⟨1, 1, "Animal Sanctuary Fund", 200, today, "Monthly donation", ts⟩,
       ⟨2, 1, "Wildlife Protection Org", 150, lastMonth, "One-time donation", ts⟩,
       ⟨3, 1, "Farm Animal Welfare", 100, lastMonth, "Monthly donation", ts⟩,
       ⟨4, 1, "Humane Society", 75, twoMonthsAgo, "Holiday donation", ts⟩,
       ⟨5, 1, "Best Friends Animal Society", 125, twoMonthsAgo, "One-time donation", ts⟩]
    conversions :=
      [⟨1, 1, "Alice Smith", lastMonth, "Documentary sharing", "Showed Dominion documentary", ts⟩,
       ⟨2, 1, "Bob Johnson", lastMonth, "Restaurant visit", "Took to vegan restaurant", ts⟩,
       ⟨3, 1, "Sarah Wilson", twoMonthsAgo, "Recipe sharing", "Shared amazing vegan recipes", ts⟩,
       ⟨4, 1, "Mike Davis", twoMonthsAgo, "Health discussion", "Discussed health benefits of plant-based diet", ts⟩,
       ⟨5, 1, "Emma Brown", twoMonthsAgo, "Environmental facts", "Shared environmental impact data", ts⟩,
       ⟨6, 1, "Chris Lee", twoMonthsAgo, "Cooking class", "Taught vegan cooking class", ts⟩,
       ⟨7, 1, "Jessica Taylor", twoMonthsAgo, "Book recommendation", "Recommended \"Eating Animals\" by Jonathan Safran Foer", ts⟩,
       ⟨8, 1, "David Rodriguez", twoMonthsAgo, "Farm sanctuary visit", "Visited local farm sanctuary together", ts⟩]
    media :=
      [⟨1, 1, "Facebook", "Video", 500, today, "", "Farm animal sanctuary video", ts⟩,
       ⟨2, 1, "Instagram", "Story", 200, today, "", "Vegan meal photo", ts⟩,
       ⟨3, 1, "Twitter", "Post", 150, lastMonth, "", "Animal rights awareness tweet", ts⟩,
       ⟨4, 1, "LinkedIn", "Article", 300, lastMonth, "", "Corporate animal welfare article", ts⟩,
       ⟨5, 1, "TikTok", "Video", 1200, twoMonthsAgo, "", "Vegan recipe tutorial", ts⟩,
       ⟨6, 1, "YouTube", "Video", 850, twoMonthsAgo, "", "Documentary recommendation video", ts⟩]
    campaigns :=
      [⟨1, 1, "Factory Farm Ban Initiative", "Animal Justice League", "Petition signing", lastMonth, "Helped gather 1000 signatures for factory farming ban", ts⟩,
       ⟨2, 1, "Wildlife Protection March", "Wildlife Defense Fund", "Event participation", twoMonthsAgo, "Participated in march for wildlife corridor protection", ts⟩,
       ⟨3, 1, "Corporate Cage-Free Campaign", "Mercy For Animals", "Email campaign", twoMonthsAgo, "Sent 50 emails to corporations requesting cage-free policies", ts⟩,
       ⟨4, 1, "Climate Action for Animals", "Animal Agriculture Reform Initiative", "Social media advocacy", twoMonthsAgo, "Shared 25 posts about animal agriculture and climate change", ts⟩,
       ⟨5, 1, "End Fur Fashion Campaign", "PETA", "Store protests", twoMonthsAgo, "Participated in peaceful protests at 3 stores selling fur", ts⟩]
    lastId := 0 }

/-- The demo data set produced by the flat-document backend's seeding routine
(simple-server.ts lines 111-219): 3 donations, only 2 conversions, 2 media
shares, 1 campaign; ids from the shared `++db.lastId` counter. -/
def flatSeedDb (today lastMonth ts : String) : Database :=
  { users := [⟨1, "johndoe@gmail.com", "John Doe", bcryptHash "password123", ts⟩]
    donations :=
      [⟨2, 1, "Animal Sanctuary Fund", 200, today, "Monthly donation", ts⟩,
       ⟨3, 1, "Wildlife Protection Org", 150, lastMonth, "One-time donation", ts⟩,
       ⟨4, 1, "Farm Animal Welfare", 100, lastMonth, "Monthly donation", ts⟩]
    conversions :=
      [⟨5, 1, "Alice Smith", lastMonth, "Documentary sharing", "Showed Dominion documentary", ts⟩,
       ⟨6, 1, "Bob Johnson", lastMonth, "Restaurant visit", "Took to vegan restaurant", ts⟩]
    media :=
      [⟨7, 1, "Facebook", "Video", 500, today, "", "Farm animal video", ts⟩,
       ⟨8, 1, "Instagram", "Story", 200, today, "", "Vegan meal photo", ts⟩]
    campaigns :=
      [⟨9, 1, "Factory Farm Ban", "Animal Justice League", "Petition signing", lastMonth, "Helped gather 1000 signatures", ts⟩]
    lastId := 9 }

/-! ### The public mutation interface as an operation language

Every way the public HTTP interface can touch the stored state: registration
and the four insert endpoints mutate it, login reads it only.  Insert
operations are taken at the post-authentication handler with an arbitrary
authenticated user id (the middleware only selects which id is used, so any
invariant proved for arbitrary ids covers every authenticated request). -/
inductive Op where
  | register (now : Nat) (createdAt email name password : String)
  | login (now : Nat) (email password : String)
  | donation (userId : Nat) (createdAt organization : String) (amount : ℚ)
      (date : String) (notes : Option String)
  | conversion (userId : Nat) (createdAt person_name conversion_date : String)
      (influence_type notes : Option String)
  | mediaShare (userId : Nat) (createdAt platform content_type : String)
      (reach_estimate : Option Int) (date : String) (url notes : Option String)
  | campaign (userId : Nat) (createdAt campaign_name : String)
      (organization : Option String) (participation_type date : String)
      (impact_description : Option String)

/-- The state after one public operation. -/
def applyOp (secret : Nat) (db : Database) : Op → Database
  | .register now createdAt email name password =>
    (register secret now createdAt db email name password).db
  | .login _ _ _ => db
  | .donation userId createdAt organization amount date notes =>
    (createDonation db userId createdAt organization amount date notes).db
  | .conversion userId createdAt person_name conversion_date influence_type notes =>
    (createConversion db userId createdAt person_name conversion_date influence_type notes).db
  | .mediaShare userId createdAt platform content_type reach_estimate date url notes =>
    (createMedia db userId createdAt platform content_type reach_estimate date url notes).db
  | .campaign userId createdAt campaign_name organization participation_type date impact_description =>
    (createCampaign db userId createdAt campaign_name organization participation_type date impact_description).db

/-- The state reached by a sequence of public operations. -/
def runOps (secret : Nat) (db : Database) (ops : List Op) : Database :=
  ops.foldl (applyOp secret) db

/-! ### Concrete runs used by counterexamples and witnesses -/

/-- State after registering one user (id 1) on the empty store. -/
def exDb1 : Database := (register 0 0 "t0" emptyDb "alice@example.com" "Alice" "secret1").db

/-- The state after additionally inserting a donation dated 2024-01-02. -/
def exDb2 : Database := (createDonation exDb1 1 "t1" "X" 50 "2024-01-02" none).db

/-- The state after additionally inserting a donation dated 2024-01-01 after
the one dated 2024-01-02: two donations stored in an order
that is not date-descending once the flat backend reverses the first ten. -/
def exDb3 : Database := (createDonation exDb2 1 "t2" "Y" 40 "2024-01-01" none).db

/-- First registration of `e@x.com`: succeeds with 201. -/
def c4reg1 : RegisterOutput := register 0 0 "t0" emptyDb "e@x.com" "Alice" "secret1"

/-- Second registration of `e@x.com` with a different name and a too-short
password: rejected, but by the password check, not the duplicate check. -/
def c4reg2 : RegisterOutput := register 0 0 "t1" c4reg1.db "e@x.com" "Bob" "ab"

/-- A donation with negative amount -50 posted on a state reached through the
public interface: accepted with 201. -/
def c7donation : CreateOutput := createDonation exDb1 1 "t1" "Org" (-50) "2024-01-01" none

/-! ### Helper lemmas -/

theorem strEqOfData {a b : String} (h : a.data = b.data) : a = b :=
  congrArg String.mk h

theorem charListLt_trichot : ∀ a b : List Char,
    charListLt a b = true ∨ charListLt b a = true ∨ a = b
  | [], [] => Or.inr (Or.inr rfl)
  | [], _ :: _ => Or.inl rfl
  | _ :: _, [] => Or.inr (Or.inl rfl)
  | a :: as, b :: bs => by
    by_cases h : a = b
    · subst h
      rcases charListLt_trichot as bs with h1 | h1 | h1
      · exact Or.inl (by simp [charListLt, h1])
      · exact Or.inr (Or.inl (by simp [charListLt, h1]))
      · exact Or.inr (Or.inr (by rw [h1]))
    · rcases lt_or_gt_of_ne h with hlt | hlt
      · exact Or.inl (by simp [charListLt, h, hlt])
      · exact Or.inr (Or.inl (by simp [charListLt, Ne.symm h, hlt]))

theorem charListLt_trans : ∀ a b c : List Char,
    charListLt a b = true → charListLt b c = true → charListLt a c = true
  | _, b, [], _, hbc => by simp [charListLt] at hbc
  | [], _ :: _, _ :: _, _, _ => by simp [charListLt]
  | _ :: _, [], _ :: _, hab, _ => by simp [charListLt] at hab
  | a :: as, b :: bs, c :: cs, hab, hbc => by
    simp only [charListLt] at hab hbc ⊢
    by_cases h1 : a = b
    · subst h1
      by_cases h2 : a = c
      · subst h2
        rw [if_pos rfl] at hab hbc ⊢
        exact charListLt_trans as bs cs hab hbc
      · rw [if_pos rfl] at hab
        rw [if_neg h2] at hbc ⊢
        exact hbc
    · by_cases h2 : b = c
      · subst h2
        rw [if_neg h1] at hab ⊢
        exact hab
      · rw [if_neg h1] at hab
        rw [if_neg h2] at hbc
        have hac : a < c := (of_decide_eq_true hab).trans (of_decide_eq_true hbc)
        rw [if_neg (ne_of_lt hac)]
        exact decide_eq_true hac

theorem keyLe_total (a b : String × String) : keyLe a b ∨ keyLe b a := by
  rcases charListLt_trichot a.1.data b.1.data with h | h | h
  · exact Or.inl (Or.inl h)
  · exact Or.inr (Or.inl h)
  · have h1 : a.1 = b.1 := strEqOfData h
    rcases charListLt_trichot a.2.data b.2.data with h2 | h2 | h2
    · exact Or.inl (Or.inr ⟨h1, Or.inr h2⟩)
    · exact Or.inr (Or.inr ⟨h1.symm, Or.inr h2⟩)
    · exact Or.inl (Or.inr ⟨h1, Or.inl (strEqOfData h2)⟩)

theorem keyLe_trans {a b c : String × String} (hab : keyLe a b) (hbc : keyLe b c) :
    keyLe a c := by
  rcases hab with h1 | ⟨h1, h1'⟩
  · rcases hbc with h2 | ⟨h2, _⟩
    · exact Or.inl (charListLt_trans _ _ _ h1 h2)
    · exact Or.inl (by rw [← h2]; exact h1)
  · rcases hbc with h2 | ⟨h2, h2'⟩
    · exact Or.inl (by rw [h1]; exact h2)
    · refine Or.inr ⟨h1.trans h2, ?_⟩
      rcases h1' with he | hl
      · rcases h2' with he2 | hl2
        · exact Or.inl (he.trans he2)
        · exact Or.inr (by rw [he]; exact hl2)
      · rcases h2' with he2 | hl2
        · exact Or.inr (by rw [← he2]; exact hl)
        · exact Or.inr (charListLt_trans _ _ _ hl hl2)

instance descKey_isTotal {α : Type} (key : α → String × String) :
    IsTotal α (descKey key) :=
  ⟨fun a b => (keyLe_total (key b) (key a)).imp id id⟩

instance descKey_isTrans {α : Type} (key : α → String × String) :
    IsTrans α (descKey key) :=
  ⟨fun _ _ _ hab hbc => keyLe_trans hbc hab⟩

theorem recentOfFlat_length_le {α : Type} (l : List α) :
    (recentOfFlat l).length ≤ 10 := by
  simp only [recentOfFlat, List.length_reverse]
  exact List.length_take_le 10 l

theorem recentOfRel_length_le {α : Type} (key : α → String × String) (l : List α) :
    (recentOfRel key l).length ≤ 10 :=
  List.length_take_le 10 _

theorem recentOfRel_sorted {α : Type} (key : α → String × String) (l : List α) :
    (recentOfRel key l).Sorted (descKey key) :=
  List.Pairwise.sublist (List.take_sublist 10 _)
    (List.sorted_insertionSort (descKey key) l)

/-- The relational `ORDER BY ... LIMIT 10` rows are the greatest rows of the
selection: together with the dropped rows they permute back to the selected
rows, and every kept row dominates every dropped row in the descending
order. -/
theorem recentOfRel_top {α : Type} (key : α → String × String) (l : List α) :
    ∃ rest, List.Perm (recentOfRel key l ++ rest) l ∧
      ∀ x ∈ recentOfRel key l, ∀ y ∈ rest, descKey key x y := by
  refine ⟨(l.insertionSort (descKey key)).drop 10, ?_, ?_⟩
  · rw [recentOfRel, List.take_append_drop]
    exact List.perm_insertionSort _ l
  · have hs : (l.insertionSort (descKey key)).Pairwise (descKey key) :=
      List.sorted_insertionSort (descKey key) l
    rw [← List.take_append_drop 10 (l.insertionSort (descKey key))] at hs
    exact (List.pairwise_append.mp hs).2.2

theorem foldl_add_map {α : Type} (f : α → ℚ) :
    ∀ (l : List α) (init : ℚ),
      l.foldl (fun s d => s + f d) init = init + (l.map f).sum
  | [], init => by simp
  | a :: l, init => by
    rw [List.foldl_cons, foldl_add_map f l, List.map_cons, List.sum_cons]
    ring

/-- The two backends compute the same dashboard statistics: SQL `SUM`/`COUNT`
over the selected rows and the JS fold/length over the filtered arrays are
the same computation. -/
theorem statsRel_eq_flat (db : Database) (u : Nat) :
    dashboardStatsRel db u = dashboardStatsFlat db u := rfl

/-- No public operation ever stores a donation with amount `0`: the only
operation that appends a donation row guards on JS truthiness of the amount,
which rejects exactly `0`. -/
theorem applyOp_donations_nonzero (secret : Nat) (db : Database) (op : Op)
    (h0 : ∀ d ∈ db.donations, d.amount ≠ 0) :
    ∀ d ∈ (applyOp secret db op).donations, d.amount ≠ 0 := by
  cases op with
  | register now createdAt email name password =>
    simp only [applyOp, register]
    split_ifs <;> exact h0
  | login now email password => exact h0
  | donation userId createdAt organization amount date notes =>
    simp only [applyOp, createDonation]
    split_ifs with hg
    · exact h0
    · intro d hd
      rcases List.mem_append.mp hd with hmem | hmem
      · exact h0 d hmem
      · have hd' : d.amount = amount := by
          simp only [List.mem_singleton] at hmem
          rw [hmem]
        rw [hd']
        intro hz
        exact hg (Or.inr (Or.inl hz))
  | conversion userId createdAt person_name conversion_date influence_type notes =>
    simp only [applyOp, createConversion]
    split_ifs <;> exact h0
  | mediaShare userId createdAt platform content_type reach_estimate date url notes =>
    simp only [applyOp, createMedia]
    split_ifs <;> exact h0
  | campaign userId createdAt campaign_name organization participation_type date impact_description =>
    simp only [applyOp, createCampaign]
    split_ifs <;> exact h0

/-! ### Claim theorems -/

/-- C3: the `animalsImpact` figure returned by the dashboard operation equals
exactly `conversionCount * 365`, where `conversionCount` is the number of the
user's conversion records, in both backends and for any stored-record set. -/
theorem c3_animals_impact (db : Database) (u : Nat) (stF stR : Stats)
    (hF : (dashboardFlat db u).stats = some stF)
    (hR : (dashboardRel db u).stats = some stR) :
    stF.animalsImpact = stF.conversionCount * 365 ∧
    stF.conversionCount = (userConversions db u).length ∧
    stR.animalsImpact = stR.conversionCount * 365 ∧
    stR.conversionCount = (userConversions db u).length := by
  unfold dashboardFlat at hF
  unfold dashboardRel at hR
  cases hfind : db.users.find? fun v => v.id == u with
  | none =>
    rw [hfind] at hF
    simp at hF
  | some v =>
    rw [hfind] at hF hR
    simp only [Option.some.injEq] at hF hR
    rw [← hF, ← hR]
    exact ⟨rfl, rfl, rfl, rfl⟩

/-- Witness for C3 at the flat backend's seeded demo state. -/
theorem c3_animals_impact_witness :
    (dashboardStatsFlat (flatSeedDb "2025-01-01" "2024-12-02" "ts") 1).animalsImpact
      = (dashboardStatsFlat (flatSeedDb "2025-01-01" "2024-12-02" "ts") 1).conversionCount * 365 :=
  (c3_animals_impact (flatSeedDb "2025-01-01" "2024-12-02" "ts") 1 _ _ rfl rfl).1

/-- C5: a registration whose password is shorter than 6 characters returns
HTTP 400 and leaves the stored state untouched: no user is appended and no
token issued. -/
theorem c5_short_password (secret now : Nat) (createdAt : String) (db : Database)
    (email name password : String) (hlen : password.length < 6) :
    (register secret now createdAt db email name password).resp.status = 400 ∧
    (register secret now createdAt db email name password).db = db ∧
    (register secret now createdAt db email name password).token = none := by
  unfold register
  by_cases h1 : email = "" ∨ name = "" ∨ password = ""
  · rw [if_pos h1]
    exact ⟨rfl, rfl, rfl⟩
  · rw [if_neg h1, if_pos hlen]
    exact ⟨rfl, rfl, rfl⟩

/-- Witness for C5: password "ab" is rejected on the empty store. -/
theorem c5_short_password_witness :
    (register 0 0 "t" emptyDb "a@x.com" "Alice" "ab").resp.status = 400 ∧
    (register 0 0 "t" emptyDb "a@x.com" "Alice" "ab").db = emptyDb ∧
    (register 0 0 "t" emptyDb "a@x.com" "Alice" "ab").token = none :=
  c5_short_password 0 0 "t" emptyDb "a@x.com" "Alice" "ab" (by decide)

/-- C6: `totalDonations` is the exact sum of the user's stored donation
amounts (both backends), and a successful POST /api/donations of amount `A`
raises the flat backend's `totalDonations` by exactly `A`. -/
theorem c6_total_donations (db : Database) (u : Nat) (createdAt organization : String)
    (amount : ℚ) (date : String) (notes : Option String)
    (hsucc : (createDonation db u createdAt organization amount date notes).resp.status = 201) :
    (dashboardStatsFlat db u).totalDonations
        = ((userDonations db u).map (fun d => d.amount)).sum ∧
    (dashboardStatsRel db u).totalDonations
        = ((userDonations db u).map (fun d => d.amount)).sum ∧
    (dashboardStatsFlat (createDonation db u createdAt organization amount date notes).db u).totalDonations
        = (dashboardStatsFlat db u).totalDonations + amount := by
  have hguard : ¬(organization = "" ∨ amount = 0 ∨ date = "") := by
    intro h
    unfold createDonation at hsucc
    rw [if_pos h] at hsucc
    simp at hsucc
  have hsum : ∀ db0 : Database,
      (dashboardStatsFlat db0 u).totalDonations
        = ((userDonations db0 u).map (fun d => d.amount)).sum := by
    intro db0
    show (userDonations db0 u).foldl (fun s d => s + d.amount) 0 = _
    rw [foldl_add_map (fun d => d.amount) (userDonations db0 u) 0, zero_add]
  refine ⟨hsum db, hsum db, ?_⟩
  unfold createDonation
  rw [if_neg hguard]
  rw [hsum, hsum]
  show ((userDonations
      { db with donations := db.donations ++
          [⟨db.lastId + 1, u, organization, amount, date, notes.getD "", createdAt⟩] } u).map
        (fun d => d.amount)).sum = _
  unfold userDonations
  simp

/-- Witness for C6: the donation of 50 recorded in `exDb2` raised the total
by exactly 50. -/
theorem c6_total_donations_witness :
    (dashboardStatsFlat exDb2 1).totalDonations
      = (dashboardStatsFlat exDb1 1).totalDonations + 50 :=
  (c6_total_donations exDb1 1 "t1" "X" 50 "2024-01-02" none (by decide)).2.2

/-- C10: an authenticated POST /api/donations whose `amount` is present but
`0` is rejected with 400 and the missing-fields message, and stores nothing:
the guard tests JS truthiness, not field presence. -/
theorem c10_zero_amount (secret now : Nat) (db : Database) (u : Nat) (email : String)
    (createdAt organization date : String) (notes : Option String) :
    donationsRoute secret now (some (jwtSign secret ⟨u, email⟩ now)) db
        createdAt organization 0 date notes
      = ⟨⟨400, some "Organization, amount, and date are required"⟩, db⟩ := by
  have hv : jwtVerify secret now (jwtSign secret ⟨u, email⟩ now) = some ⟨u, email⟩ := by
    have hlt : now < now + 7 * 24 * 60 * 60 := by omega
    simp [jwtVerify, jwtSign, hlt]
  have hauth : authenticateToken secret now (some (jwtSign secret ⟨u, email⟩ now))
      = AuthResult.ok ⟨u, email⟩ := by
    simp [authenticateToken, hv]
  unfold donationsRoute
  rw [hauth]
  show createDonation db u createdAt organization 0 date notes = _
  unfold createDonation
  rw [if_pos (Or.inr (Or.inl rfl))]

/-- C1 (counterexample): in the flat-document backend the "recent" donation
list is not sorted by the record's own date descending — after registering a
user and inserting a donation dated 2024-01-02 and then one dated 2024-01-01,
the returned list is in ascending date order. -/
theorem c1_recent_lists_counterexample :
    ¬ (recentFlat exDb3 1).donations.Sorted (descKey donationKey) := by
  decide

/-- C1 (amended): both backends return at most 10 entries per "recent" list;
the relational backend's lists are sorted by the record's own date descending
with creation timestamp descending as tie-break and consist of the greatest
rows of the user's records under that order; the flat-document backend
instead returns the first 10 stored records of the user in reverse storage
order. -/
theorem c1_recent_lists_amended (db : Database) (u : Nat) :
    ((recentFlat db u).donations.length ≤ 10 ∧ (recentFlat db u).conversions.length ≤ 10 ∧
     (recentFlat db u).media.length ≤ 10 ∧ (recentFlat db u).campaigns.length ≤ 10) ∧
    ((recentRel db u).donations.length ≤ 10 ∧ (recentRel db u).conversions.length ≤ 10 ∧
     (recentRel db u).media.length ≤ 10 ∧ (recentRel db u).campaigns.length ≤ 10) ∧
    ((recentRel db u).donations.Sorted (descKey donationKey) ∧
     (recentRel db u).conversions.Sorted (descKey conversionKey) ∧
     (recentRel db u).media.Sorted (descKey mediaKey) ∧
     (recentRel db u).campaigns.Sorted (descKey campaignKey)) ∧
    (∃ rest, List.Perm ((recentRel db u).donations ++ rest) (userDonations db u) ∧
       ∀ x ∈ (recentRel db u).donations, ∀ y ∈ rest, descKey donationKey x y) ∧
    (recentFlat db u).donations = ((userDonations db u).take 10).reverse :=
  ⟨⟨recentOfFlat_length_le _, recentOfFlat_length_le _,
    recentOfFlat_length_le _, recentOfFlat_length_le _⟩,
   ⟨recentOfRel_length_le _ _, recentOfRel_length_le _ _,
    recentOfRel_length_le _ _, recentOfRel_length_le _ _⟩,
   ⟨recentOfRel_sorted _ _, recentOfRel_sorted _ _,
    recentOfRel_sorted _ _, recentOfRel_sorted _ _⟩,
   recentOfRel_top _ _, rfl⟩

/-- C2 (counterexample): the same register/insert sequence applied to both
backends yields different "recent" donation lists from the dashboard — even
the sequences of record dates differ — so the backends are not functionally
equivalent. -/
theorem c2_backend_equivalence_counterexample :
    (recentFlat (runOps 0 emptyDb
        [Op.register 0 "t0" "alice@example.com" "Alice" "secret1",
         Op.donation 1 "t1" "X" 50 "2024-01-02" none,
         Op.donation 1 "t2" "Y" 40 "2024-01-01" none]) 1).donations.map (fun d => d.date)
    ≠ (recentRel (runOps 0 emptyDb
        [Op.register 0 "t0" "alice@example.com" "Alice" "secret1",
         Op.donation 1 "t1" "X" 50 "2024-01-02" none,
         Op.donation 1 "t2" "Y" 40 "2024-01-01" none]) 1).donations.map (fun d => d.date) := by
  decide

/-- C2 (amended): the backends agree on the full dashboard statistics and on
the dashboard response status for every stored state and user, but not on the
"recent" lists. -/
theorem c2_backend_equivalence_amended (db : Database) (u : Nat) :
    dashboardStatsRel db u = dashboardStatsFlat db u ∧
    (dashboardRel db u).resp = (dashboardFlat db u).resp := by
  refine ⟨statsRel_eq_flat db u, ?_⟩
  unfold dashboardRel dashboardFlat
  cases db.users.find? fun v => v.id == u <;> rfl

/-- C4 (counterexample): a second registration with an already-registered
email does not always fail with the duplicate-user error — when the second
request's password is shorter than 6 characters, the password check fires
first and the error is the short-password message (still 400, and still no
second user is stored). -/
theorem c4_duplicate_registration_counterexample :
    c4reg1.resp.status = 201 ∧
    c4reg2.resp.status = 400 ∧
    c4reg2.resp.error ≠ some "User already exists" ∧
    c4reg2.db.users.length = 1 := by
  decide

/-- C4 (amended): once an email is stored, any further registration with the
same email (case-sensitive exact match) returns 400, stores no user, and
issues no token; the error is specifically the duplicate-user message
whenever the second request passes field-presence and password-length
validation. -/
theorem c4_duplicate_registration_amended (secret now : Nat) (createdAt : String)
    (db : Database) (email name password : String)
    (hdup : ∃ u ∈ db.users, u.email = email) :
    ((register secret now createdAt db email name password).resp.status = 400 ∧
     (register secret now createdAt db email name password).db = db ∧
     (register secret now createdAt db email name password).token = none) ∧
    (email ≠ "" → name ≠ "" → 6 ≤ password.length →
      (register secret now createdAt db email name password).resp.error
        = some "User already exists") := by
  have hfind : (db.users.find? fun u => u.email == email).isSome := by
    rw [List.find?_isSome]
    obtain ⟨u, hu, he⟩ := hdup
    exact ⟨u, hu, by simp [he]⟩
  constructor
  · unfold register
    by_cases h1 : email = "" ∨ name = "" ∨ password = ""
    · rw [if_pos h1]
      exact ⟨rfl, rfl, rfl⟩
    · rw [if_neg h1]
      by_cases h2 : password.length < 6
      · rw [if_pos h2]
        exact ⟨rfl, rfl, rfl⟩
      · rw [if_neg h2, if_pos hfind]
        exact ⟨rfl, rfl, rfl⟩
  · intro he hn hlen
    have h1 : ¬(email = "" ∨ name = "" ∨ password = "") := by
      push_neg
      refine ⟨he, hn, fun h => ?_⟩
      rw [h] at hlen
      exact absurd hlen (by decide)
    have h2 : ¬ password.length < 6 := by omega
    unfold register
    rw [if_neg h1, if_neg h2, if_pos hfind]

/-- Witness for the amended C4: registering `e@x.com` a second time with a
valid name and password hits the duplicate error. -/
theorem c4_duplicate_registration_witness :
    (register 0 0 "t1" c4reg1.db "e@x.com" "Carol" "abcdef").resp.status = 400 ∧
    (register 0 0 "t1" c4reg1.db "e@x.com" "Carol" "abcdef").resp.error
      = some "User already exists" := by
  have h := c4_duplicate_registration_amended 0 0 "t1" c4reg1.db "e@x.com" "Carol" "abcdef"
    (by decide)
  exact ⟨h.1.1, h.2 (by decide) (by decide) (by decide)⟩

/-- C7 (counterexample): POST /api/donations accepts a negative amount — on a
state reached through the public interface, a donation of -50 is stored with
HTTP 201, so non-negativity of stored donation amounts is not an invariant. -/
theorem c7_nonnegative_counterexample :
    c7donation.resp.status = 201 ∧ ∃ d ∈ c7donation.db.donations, d.amount < 0 := by
  decide

/-- C7 (amended): the invariant actually preserved by every public operation
is that no stored donation has amount exactly 0 (the truthiness guard rejects
only 0); amounts may be negative. -/
theorem c7_nonzero_amended (secret : Nat) (db0 : Database) (ops : List Op)
    (h0 : ∀ d ∈ db0.donations, d.amount ≠ 0) :
    ∀ d ∈ (runOps secret db0 ops).donations, d.amount ≠ 0 := by
  induction ops generalizing db0 with
  | nil => exact h0
  | cons op rest ih =>
    exact ih (applyOp secret db0 op) (applyOp_donations_nonzero secret db0 op h0)

/-- Witness for the amended C7: the donation row stored by a concrete run
that posts amount -50 has nonzero amount. -/
theorem c7_nonzero_amended_witness :
    (⟨2, 1, "Org", -50, "2024-01-01", "", "t1"⟩ : Donation).amount ≠ 0 :=
  c7_nonzero_amended 0 emptyDb
    [Op.register 0 "t0" "a@x.com" "Alice" "secret1",
     Op.donation 1 "t1" "Org" (-50) "2024-01-01" none]
    (by decide) ⟨2, 1, "Org", -50, "2024-01-01", "", "t1"⟩ (by decide)

/-- C8: on every authenticated route (dashboard and donation insert), a
request with no bearer token gets 401 and a request whose token fails
verification (bad signature or expired) gets 403; in both cases the stored
state is returned unchanged, the handler body never running. -/
theorem c8_auth_gate (secret now : Nat) (header : Option Token) (db : Database)
    (createdAt organization : String) (amount : ℚ) (date : String) (notes : Option String) :
    (header = none →
      (dashboardRoute secret now header db).1.resp.status = 401 ∧
      (dashboardRoute secret now header db).2 = db ∧
      (donationsRoute secret now header db createdAt organization amount date notes).resp.status = 401 ∧
      (donationsRoute secret now header db createdAt organization amount date notes).db = db) ∧
    (∀ t, header = some t → jwtVerify secret now t = none →
      (dashboardRoute secret now header db).1.resp.status = 403 ∧
      (dashboardRoute secret now header db).2 = db ∧
      (donationsRoute secret now header db createdAt organization amount date notes).resp.status = 403 ∧
      (donationsRoute secret now header db createdAt organization amount date notes).db = db) := by
  constructor
  · rintro rfl
    exact ⟨rfl, rfl, rfl, rfl⟩
  · rintro t rfl hv
    have hauth : authenticateToken secret now (some t) = AuthResult.forbidden := by
      simp [authenticateToken, hv]
    unfold dashboardRoute donationsRoute
    rw [hauth]
    exact ⟨rfl, rfl, rfl, rfl⟩

/-- Witness for C8: a missing header gives 401 and a wrongly-signed token
gives 403 on the dashboard route. -/
theorem c8_auth_gate_witness :
    (dashboardRoute 0 0 none emptyDb).1.resp.status = 401 ∧
    (dashboardRoute 0 0 (some ⟨⟨1, "a"⟩, 100, 0⟩) emptyDb).1.resp.status = 403 :=
  ⟨((c8_auth_gate 0 0 none emptyDb "t" "Org" 1 "d" none).1 rfl).1,
   (((c8_auth_gate 0 0 (some ⟨⟨1, "a"⟩, 100, 0⟩) emptyDb "t" "Org" 1 "d" none).2)
      ⟨⟨1, "a"⟩, 100, 0⟩ rfl (by decide)).1⟩

/-- C9 (counterexample): against the flat-document backend's seeded demo
data, login succeeds but the dashboard reports `conversionCount = 2`
(hence `animalsImpact = 730`), not 8 — the scenario does not hold for
whichever backend seeded the data. -/
theorem c9_demo_counterexample :
    (login 0 0 (flatSeedDb "2025-01-01" "2024-12-02" "ts")
        "johndoe@gmail.com" "password123").1.status = 200 ∧
    (dashboardStatsFlat (flatSeedDb "2025-01-01" "2024-12-02" "ts") 1).conversionCount = 2 ∧
    (dashboardStatsFlat (flatSeedDb "2025-01-01" "2024-12-02" "ts") 1).animalsImpact = 730 ∧
    ¬ (dashboardStatsFlat (flatSeedDb "2025-01-01" "2024-12-02" "ts") 1).conversionCount = 8 := by
  decide

/-- C9 (amended): the scenario holds exactly for the relational backend's
seeding routine — login with the demo credentials returns 200 and the
dashboard reports `conversionCount = 8` and `animalsImpact = 2920` — while
the flat backend's seeding yields 200 with `conversionCount = 2` and
`animalsImpact = 730`. -/
theorem c9_demo_amended (today lastMonth twoMonthsAgo ts : String) (secret now : Nat) :
    ((login secret now (relSeedDb today lastMonth twoMonthsAgo ts)
        "johndoe@gmail.com" "password123").1.status = 200 ∧
     (dashboardRel (relSeedDb today lastMonth twoMonthsAgo ts) 1).resp.status = 200 ∧
     (dashboardStatsRel (relSeedDb today lastMonth twoMonthsAgo ts) 1).conversionCount = 8 ∧
     (dashboardStatsRel (relSeedDb today lastMonth twoMonthsAgo ts) 1).animalsImpact = 2920) ∧
    ((login secret now (flatSeedDb today lastMonth ts)
        "johndoe@gmail.com" "password123").1.status = 200 ∧
     (dashboardStatsFlat (flatSeedDb today lastMonth ts) 1).conversionCount = 2 ∧
     (dashboardStatsFlat (flatSeedDb today lastMonth ts) 1).animalsImpact = 730) := by
  have hrel : (userConversions (relSeedDb today lastMonth twoMonthsAgo ts) 1).length = 8 := rfl
  have hflat : (userConversions (flatSeedDb today lastMonth ts) 1).length = 2 := rfl
  refine ⟨⟨rfl, rfl, hrel, ?_⟩, ⟨rfl, hflat, ?_⟩⟩
  · show (userConversions (relSeedDb today lastMonth twoMonthsAgo ts) 1).length * 365 = 2920
    rw [hrel]
  · show (userConversions (flatSeedDb today lastMonth ts) 1).length * 365 = 730
    rw [hflat]

end AnimalImpact
